import Mathlib

/-!
Verification of the Wortly quiz core (src/app/index.tsx).

The development shallowly embeds the question-generation and scoring logic
of the app. JavaScript `Math.random()` draws are modelled by an oracle
`Rng : Nat → Nat`: the i-th draw `Math.floor(Math.random() * n)` is
`g i % n` (and `0` when `n = 0`, matching `Math.floor(0) = 0`); a position
counter is threaded explicitly through every function so that each draw
consumes one oracle value. Code that can throw a runtime `TypeError`
(an out-of-bounds array access followed by a field projection) is embedded
in `Except Unit`. JS numbers appearing here are small integers, embedded
as `Nat`/`Int`; the one place where binary64 arithmetic is observable,
`getSuccessRate`, is embedded with exact IEEE-754 semantics: `fl64` below
rounds an exact rational to the binary64 grid (round to nearest, ties to
even), each arithmetic operation of the source is one exact operation
followed by `fl64`, and ECMAScript `Math.round` (nearest integer, ties
toward +∞, applied to the exact value of the double) is `round : ℚ → ℤ`.
Source identifiers containing Turkish letters (`tür`, `çekimler`, `örnek`,
`randomKişi`) are transliterated to ASCII (`tur`, `cekimler`, `ornek`,
`randomKisi`) because Lean does not accept those characters in names;
string literals keep the original spelling.
-/

namespace Wortly

attribute [local semireducible] Rat.add Rat.mul Rat.inv Rat.sub

/-- Oracle modelling the stream of `Math.random()` draws. -/
abbrev Rng := Nat → Nat

/-- Embedding of `Math.floor(Math.random() * n)` for the draw at position
`pos`: a value `< n` when `n > 0`, and `0` when `n = 0` (in JS,
`Math.floor(Math.random() * 0) = 0`). -/
def randBelow (g : Rng) (pos n : Nat) : Nat :=
  if n = 0 then 0 else g pos % n

/-- Embedding of the JS idiom `l[Math.floor(Math.random() * l.length)]`,
which is `undefined` (here `none`) exactly when `l` is empty. -/
def pickRandom {α : Type} (l : List α) (g : Rng) (pos : Nat) : Option α :=
  l[randBelow g pos l.length]?

/-- The six grammatical persons (source constant `KISILER`, line 32). -/
inductive Kisi
  | ich
  | du
  | er_sie_es
  | wir
  | ihr
  | sie_Sie
deriving DecidableEq, Repr

/-- Source constant `KISILER` (line 32): the fixed ordered list of persons. -/
def KISILER : List Kisi := [.ich, .du, .er_sie_es, .wir, .ihr, .sie_Sie]

/-- Source constant `KISI_LABELS` (lines 33-40). -/
def KISI_LABELS : Kisi → String
  | .ich => "ich"
  | .du => "du"
  | .er_sie_es => "er/sie/es"
  | .wir => "wir"
  | .ihr => "ihr"
  | .sie_Sie => "sie/Sie"

/-- A verb's conjugation table: a total map from the six fixed person keys
to conjugated forms, written as a record (source field `çekimler`; its type
comes from src/types/kelime.ts, which is not part of the sources — the
record shape is modelled from the spec §3: "mapping from one of 6 fixed
person-keys to a conjugated form string"). -/
structure Cekimler where
  ich : String
  du : String
  er_sie_es : String
  wir : String
  ihr : String
  sie_Sie : String
deriving DecidableEq, Repr

/-- Lookup `çekimler[randomKişi]` in a conjugation table. -/
def Cekimler.get (c : Cekimler) : Kisi → String
  | .ich => c.ich
  | .du => c.du
  | .er_sie_es => c.er_sie_es
  | .wir => c.wir
  | .ihr => c.ihr
  | .sie_Sie => c.sie_Sie

/-- Grammatical class of a dictionary entry (source string union
"verb" | "noun"; spec §3). -/
inductive Tur
  | verb
  | noun
deriving DecidableEq, Repr

/-- A dictionary entry (source type `Kelime` from src/types/kelime.ts,
not among the sources; the fields are modelled from the spec §3 and from
every field access made by src/app/index.tsx: `kelime`, `tür`, `anlam`,
`çekimler`, `perfekt`). -/
structure Kelime where
  kelime : String
  tur : Tur
  anlam : String
  ornek : String := ""
  cekimler : Option Cekimler := none
  perfekt : Option String := none
deriving DecidableEq, Repr

instance : Inhabited Kelime :=
  ⟨{ kelime := "", tur := .noun, anlam := "" }⟩

/-- JS truthiness of an optional string field (`!!x` / `if (x)`):
`undefined` and the empty string are falsy. -/
def strTruthy : Option String → Bool
  | none => false
  | some s => !(s == "")

/-- A question record (source interface `Question`, lines 16-23). -/
structure Question where
  type : String
  question : String
  correctAnswer : String
  options : List String
  typeText : String
  verb : Option String := none
deriving DecidableEq, Repr

/-- Source constant `QUESTION_TYPES` (lines 26-31). -/
def QUESTION_TYPES : List String :=
  ["kelime-anlam", "anlam-kelime", "çekim", "perfekt"]

/-- One iteration body of the sampling loop in `generateOptions`
(lines 85-124): draw a candidate wrong option according to `type`.
Returns `.error ()` exactly where the JS would throw a `TypeError`
(indexing an empty array and projecting a field of `undefined`), and
`.ok (wrongOption, pos')` otherwise, where `pos'` counts the
`Math.random()` draws consumed. -/
def drawWrongOption (kelimeler : List Kelime) (type : String)
    (verb : Option String) (g : Rng) (pos : Nat) :
    Except Unit (Option String × Nat) :=
  if type = "anlam" then
    match pickRandom kelimeler g pos with
    | none => .error ()
    | some randomKelime => .ok (some randomKelime.anlam, pos + 1)
  else if type = "kelime" then
    match pickRandom kelimeler g pos with
    | none => .error ()
    | some randomKelime2 => .ok (some randomKelime2.kelime, pos + 1)
  else if type = "çekim" then
    let verbKelimeler := kelimeler.filter fun k =>
      decide (k.tur = Tur.verb) && decide (¬ verb = some k.kelime)
        && k.cekimler.isSome
    if verbKelimeler.length > 0 then
      match pickRandom verbKelimeler g pos with
      | none => .error ()
      | some randomVerb =>
        let randomKisi := (pickRandom KISILER g (pos + 1)).getD Kisi.ich
        match randomVerb.cekimler with
        | some t => .ok (some (t.get randomKisi), pos + 2)
        | none => .ok (none, pos + 2)
    else .ok (none, pos)
  else if type = "perfekt" then
    let verbKelimeler2 := kelimeler.filter fun k =>
      decide (k.tur = Tur.verb) && strTruthy k.perfekt
        && decide (¬ verb = some k.kelime)
    if verbKelimeler2.length > 0 then
      match pickRandom verbKelimeler2 g pos with
      | none => .error ()
      | some randomVerb => .ok (some (randomVerb.kelime ++ " (perfekt)"), pos + 1)
    else .ok (none, pos)
  else .ok (none, pos)

/-- Source constant `maxAttempts` (line 79). -/
def maxAttempts : Nat := 20

/-- The acceptance test of the sampling loop (lines 126-128):
`if (wrongOption && !options.includes(wrongOption)) options.push(wrongOption)`
— the candidate is appended only when it is truthy (defined and non-empty)
and not already present (case-sensitive membership). -/
def acceptOption (options : List String) : Option String → List String
  | some s => if s ≠ "" ∧ s ∉ options then options ++ [s] else options
  | none => options

/-- The `while (options.length < 4 && attempts < maxAttempts)` loop of
`generateOptions` (lines 81-129), with the remaining attempt budget as
fuel. The result carries the final option list, the next oracle position,
and the number of attempts executed. -/
def optionsLoop (kelimeler : List Kelime) (type : String)
    (verb : Option String) (g : Rng) :
    Nat → Nat → List String → Except Unit (List String × Nat × Nat)
  | 0, pos, options => .ok (options, pos, 0)
  | fuel + 1, pos, options =>
    if options.length < 4 then
      match drawWrongOption kelimeler type verb g pos with
      | .error e => .error e
      | .ok (wrongOption, pos') =>
        match optionsLoop kelimeler type verb g fuel pos'
            (acceptOption options wrongOption) with
        | .error e => .error e
        | .ok (res, posEnd, attempts) => .ok (res, posEnd, attempts + 1)
    else .ok (options, pos, 0)

/-- Source constant `fallbackOptions` (lines 132-137). -/
def fallbackOptions : List String :=
  ["seçenek 1", "seçenek 2", "seçenek 3", "seçenek 4"]

/-- One iteration of the filler loop (lines 138-145): look up
`fallbackOptions[options.length - 1]`, append it if fresh, otherwise
append `"seçenek " ++ options.length`. The JS index `options.length - 1`
is nonnegative at every call because `options` always contains at least
the correct answer. -/
def fillOne (options : List String) : List String :=
  if fallbackOptions.getD (options.length - 1) "" ∉ options then
    options ++ [fallbackOptions.getD (options.length - 1) ""]
  else options ++ ["seçenek " ++ toString options.length]

/-- The `while (options.length < 4)` filler loop (lines 138-145); each
iteration appends exactly one string, so fuel 4 always suffices. -/
def fillLoop : Nat → List String → List String
  | 0, options => options
  | fuel + 1, options =>
    if options.length < 4 then fillLoop fuel (fillOne options) else options

/-- Model of `options.sort(() => Math.random() - 0.5)` (line 148): the
comparator-based pseudo-shuffle is embedded as an oracle-driven
permutation that repeatedly extracts an oracle-chosen element. One oracle
value is consumed per element. -/
def shuffleOptions (g : Rng) : Nat → Nat → List String → List String
  | 0, _, l => l
  | fuel + 1, pos, l =>
    if l.length = 0 then l
    else
      l.getD (randBelow g pos l.length) "" ::
        shuffleOptions g fuel (pos + 1)
          (l.erase (l.getD (randBelow g pos l.length) ""))

/-- The `if (options.length < 4)` filler guard of `generateOptions`
(lines 131-146). -/
def fillIfNeeded (options : List String) : List String :=
  if options.length < 4 then fillLoop 4 options else options

/-- Source function `generateOptions` (lines 71-149): the distractor
sampler. Starts from `[correctAnswer]`, runs the sampling loop, fills up
to 4 entries with the fixed filler strings when needed, and shuffles. -/
def generateOptions (kelimeler : List Kelime) (correctAnswer : String)
    (type : String) (verb : Option String) (g : Rng) (pos : Nat) :
    Except Unit (List String × Nat) :=
  match optionsLoop kelimeler type verb g maxAttempts pos [correctAnswer] with
  | .error e => .error e
  | .ok (options, pos', _) =>
    .ok (shuffleOptions g (fillIfNeeded options).length pos' (fillIfNeeded options),
         pos' + (fillIfNeeded options).length)

/-- The capability filter of `generateQuestion` (lines 190-198):
`çekim` requires a verb with a (truthy, i.e. present) conjugation table,
`perfekt` requires a verb with a truthy perfect form. -/
def availableTypesFor (randomKelime : Kelime) : List String :=
  QUESTION_TYPES.filter fun type =>
    if type = "çekim" then
      decide (randomKelime.tur = Tur.verb) && randomKelime.cekimler.isSome
    else if type = "perfekt" then
      decide (randomKelime.tur = Tur.verb) && strTruthy randomKelime.perfekt
    else true

/-- Question-type selection of `generateQuestion` (lines 200-203):
a uniform draw from the capability-filtered list, defaulting to
`["kelime-anlam"]` if that list were empty. -/
def selectType (randomKelime : Kelime) (g : Rng) (pos : Nat) : String :=
  let availableTypes := availableTypesFor randomKelime
  let finalTypes :=
    if availableTypes.length > 0 then availableTypes else ["kelime-anlam"]
  (pickRandom finalTypes g pos).getD "kelime-anlam"

/-- The `kelime-anlam` question construction, shared verbatim by the
`"kelime-anlam"` case, both capability-fallback branches, and the
`default` case of the switch (lines 209-216, 245-253, 269-277, 279-286). -/
def kelimeAnlamQuestion (kelimeler : List Kelime) (randomKelime : Kelime)
    (g : Rng) (pos : Nat) : Except Unit (Question × Nat) :=
  match generateOptions kelimeler randomKelime.anlam "anlam" none g pos with
  | .error e => .error e
  | .ok (options, pos') =>
    .ok ({ type := "kelime-anlam"
           question := randomKelime.kelime
           correctAnswer := randomKelime.anlam
           options := options
           typeText := "Bu kelimenin anlamı nedir?" }, pos')

/-- The `try`-block switch of `generateQuestion` (lines 207-287), given the
already-drawn subject `randomKelime` and selected `questionType`. Errors
propagate to the `catch` handler. -/
def buildQuestion (kelimeler : List Kelime) (randomKelime : Kelime)
    (questionType : String) (g : Rng) (pos : Nat) :
    Except Unit (Question × Nat) :=
  if questionType = "kelime-anlam" then
    kelimeAnlamQuestion kelimeler randomKelime g pos
  else if questionType = "anlam-kelime" then
    match generateOptions kelimeler randomKelime.kelime "kelime" none g pos with
    | .error e => .error e
    | .ok (options, pos') =>
      .ok ({ type := "anlam-kelime"
             question := randomKelime.anlam
             correctAnswer := randomKelime.kelime
             options := options
             typeText := "Bu anlamın Almancası nedir?" }, pos')
  else if questionType = "çekim" then
    match randomKelime.cekimler, decide (randomKelime.tur = Tur.verb) with
    | some t, true =>
      let randomKisi := (pickRandom KISILER g pos).getD Kisi.ich
      let cekim := t.get randomKisi
      match generateOptions kelimeler cekim "çekim" (some randomKelime.kelime)
          g (pos + 1) with
      | .error e => .error e
      | .ok (options, pos') =>
        .ok ({ type := "çekim"
               question := KISI_LABELS randomKisi ++ " _______ ("
                 ++ randomKelime.kelime ++ ")"
               correctAnswer := cekim
               options := options
               verb := some randomKelime.kelime
               typeText := "Doğru çekimi seçin" }, pos')
    | _, _ => kelimeAnlamQuestion kelimeler randomKelime g pos
  else if questionType = "perfekt" then
    if strTruthy randomKelime.perfekt && decide (randomKelime.tur = Tur.verb) then
      match generateOptions kelimeler randomKelime.kelime "kelime" none g pos with
      | .error e => .error e
      | .ok (options, pos') =>
        .ok ({ type := "perfekt"
               question := "\"" ++ randomKelime.perfekt.getD ""
                 ++ "\" hangi fiilin perfekt halidir?"
               correctAnswer := randomKelime.kelime
               options := options
               verb := some randomKelime.kelime
               typeText := "Bu perfekt hali hangi fiildir?" }, pos')
    else kelimeAnlamQuestion kelimeler randomKelime g pos
  else kelimeAnlamQuestion kelimeler randomKelime g pos

/-- The `catch` handler of `generateQuestion` (lines 292-304): the minimal
fallback question, built without the sampler. -/
def fallbackQuestion (randomKelime : Kelime) : Question :=
  { type := "kelime-anlam"
    question := randomKelime.kelime
    correctAnswer := randomKelime.anlam
    options := [randomKelime.anlam, "yanlış 1", "yanlış 2", "yanlış 3"]
    typeText := "Bu kelimenin anlamı nedir?" }

/-- Body of `generateQuestion` after the subject has been drawn: select a
type, run the `try`-block, and recover through the `catch` handler on any
error. Its result type `Question` (not `Except`) embeds the fact that no
error ever propagates past the handler. -/
def generateQuestionWith (kelimeler : List Kelime) (randomKelime : Kelime)
    (g : Rng) (pos : Nat) : Question :=
  match buildQuestion kelimeler randomKelime (selectType randomKelime g pos)
      g (pos + 1) with
  | .ok (q, _) => q
  | .error _ => fallbackQuestion randomKelime

/-- Source function `generateQuestion` (lines 171-305): returns `none`
(the early `return` on line 172) for an empty dictionary, otherwise draws
a subject uniformly and builds a question. -/
def generateQuestion (kelimeler : List Kelime) (g : Rng) (pos : Nat) :
    Option Question :=
  if kelimeler.length = 0 then none
  else
    let randomKelime := (pickRandom kelimeler g pos).getD default
    some (generateQuestionWith kelimeler randomKelime g (pos + 1))

/-- The React state of `App` that the core operations touch
(lines 155-161). -/
structure AppState where
  currentQuestion : Option Question
  selectedAnswer : Option String
  showResult : Bool
  score : Nat
  totalQuestions : Nat
  streak : Nat
deriving DecidableEq, Repr

/-- Initial state (lines 155-160): no question, all counters zero. -/
def initState : AppState :=
  { currentQuestion := none
    selectedAnswer := none
    showResult := false
    score := 0
    totalQuestions := 0
    streak := 0 }

/-- Source function `checkAnswer` (lines 307-319). -/
def checkAnswer (s : AppState) (answer : String) : AppState :=
  match s.currentQuestion with
  | none => s
  | some currentQuestion =>
    { s with
      selectedAnswer := some answer
      showResult := true
      totalQuestions := s.totalQuestions + 1
      score := if answer = currentQuestion.correctAnswer then s.score + 1
               else s.score
      streak := if answer = currentQuestion.correctAnswer then s.streak + 1
                else 0 }

/-- An option press in the UI (lines 469-473): the handler runs
`!showResult && checkAnswer(option)` and the button is `disabled` while
`showResult` holds, so answering an already-answered question is ignored. -/
def pressOption (s : AppState) (answer : String) : AppState :=
  if s.showResult then s else checkAnswer s answer

/-- Effect of a `generateQuestion` call on the app state (lines 289-291,
301-303): on an empty dictionary nothing changes (early return);
otherwise the new question is installed and the answer/result flags are
cleared. -/
def applyGenerateQuestion (kelimeler : List Kelime) (g : Rng) (pos : Nat)
    (s : AppState) : AppState :=
  match generateQuestion kelimeler g pos with
  | none => s
  | some q =>
    { s with currentQuestion := some q, selectedAnswer := none,
             showResult := false }

/-- The "Sonraki Soru" button (lines 527-531): clear the result flags and
generate the next question. -/
def nextQuestion (kelimeler : List Kelime) (g : Rng) (pos : Nat)
    (s : AppState) : AppState :=
  applyGenerateQuestion kelimeler g pos
    { s with showResult := false, selectedAnswer := none }

/-- The confirmed branch of `resetScore` (lines 335-340): zero all three
counters, then generate a new question. -/
def resetScoreConfirmed (kelimeler : List Kelime) (g : Rng) (pos : Nat)
    (s : AppState) : AppState :=
  applyGenerateQuestion kelimeler g pos
    { s with score := 0, totalQuestions := 0, streak := 0 }

/-- Fuel-driven floored base-2 logarithm on naturals (structural in the
fuel, so the kernel can evaluate it on literals). -/
def log2Fuel : Nat → Nat → Nat
  | 0, _ => 0
  | fuel + 1, n => if 2 ≤ n then log2Fuel fuel (n / 2) + 1 else 0

/-- Floored base-2 logarithm: for `1 ≤ n`,
`2 ^ natLog2 n ≤ n < 2 ^ (natLog2 n + 1)`. -/
def natLog2 (n : Nat) : Nat := log2Fuel n n

/-- Floored base-2 logarithm of a positive rational: the unique `e` with
`2 ^ e ≤ a < 2 ^ (e + 1)`, computed from the bit lengths of numerator and
denominator with a one-step correction. -/
def qlog2 (a : ℚ) : ℤ :=
  if a < 2 ^ ((natLog2 a.num.toNat : ℤ) - (natLog2 a.den : ℤ))
  then (natLog2 a.num.toNat : ℤ) - (natLog2 a.den : ℤ) - 1
  else (natLog2 a.num.toNat : ℤ) - (natLog2 a.den : ℤ)

/-- Round a rational to the nearest integer, ties to even. -/
def rne (x : ℚ) : ℤ :=
  if x - ⌊x⌋ < 1 / 2 then ⌊x⌋
  else if 1 / 2 < x - ⌊x⌋ then ⌊x⌋ + 1
  else if ⌊x⌋ % 2 = 0 then ⌊x⌋ else ⌊x⌋ + 1

/-- Round a positive rational to the IEEE-754 binary64 grid: the nearest
(ties to even) integer multiple of `2 ^ (e - 52)`, where `e` is the
floored base-2 logarithm clamped below at the minimal normal exponent
`-1022` (so gradual underflow onto the subnormal grid of spacing
`2 ^ (-1074)` is modelled). Overflow to infinity is not modelled —
magnitudes of `2 ^ 1024` and above stay on the top binade's grid — because
every value this development rounds lies in `[0, 101)`. -/
def fl64pos (a : ℚ) : ℚ :=
  (rne (a / 2 ^ (max (qlog2 a) (-1022) - 52)) : ℚ) *
    2 ^ (max (qlog2 a) (-1022) - 52)

/-- Binary64 round-to-nearest-even on exact rationals, the result of one
IEEE-754 double operation whose exact value is the argument. -/
def fl64 (q : ℚ) : ℚ :=
  if q = 0 then 0
  else if 0 < q then fl64pos q
  else -fl64pos (-q)

/-- Source function `getSuccessRate` (lines 346-348):
`Math.round((score / totalQuestions) * 100)` computed in binary64 — the
quotient is one rounded double operation, the product with the exact
constant 100 another, and ECMAScript `Math.round` (nearest integer, ties
toward +∞, on the exact value of the resulting double) is `round`. The
counters themselves are exact (integer counts below `2 ^ 53` are exactly
representable doubles). Returns `0` when no question has been answered. -/
def getSuccessRate (score totalQuestions : Nat) : Int :=
  if totalQuestions > 0 then
    round (fl64 (fl64 ((score : ℚ) / (totalQuestions : ℚ)) * 100))
  else 0

/-- States of the app reachable through the core operations: the initial
state, question generation (including the mount effect, lines 321-325),
option presses, the next-question button, and the confirmed reset. -/
inductive Reachable (kelimeler : List Kelime) : AppState → Prop
  | init : Reachable kelimeler initState
  | gen (s : AppState) (g : Rng) (pos : Nat) :
      Reachable kelimeler s →
      Reachable kelimeler (applyGenerateQuestion kelimeler g pos s)
  | press (s : AppState) (a : String) :
      Reachable kelimeler s → Reachable kelimeler (pressOption s a)
  | next (s : AppState) (g : Rng) (pos : Nat) :
      Reachable kelimeler s →
      Reachable kelimeler (nextQuestion kelimeler g pos s)
  | reset (s : AppState) (g : Rng) (pos : Nat) :
      Reachable kelimeler s →
      Reachable kelimeler (resetScoreConfirmed kelimeler g pos s)

/-- The all-zeros oracle, used for concrete evaluations: every
`Math.random()` draw returns its minimum. -/
def rng0 : Rng := fun _ => 0

/-! ### Concrete sample data used by witnesses -/

/-- A noun entry, as in the spec §8 scenario. -/
def hausK : Kelime := { kelime := "Haus", tur := .noun, anlam := "ev" }

/-- The conjugation table of the verb "gehen". -/
def gehenCekimler : Cekimler :=
  { ich := "gehe", du := "gehst", er_sie_es := "geht",
    wir := "gehen", ihr := "geht", sie_Sie := "gehen" }

/-- A fully-featured verb entry, as in the spec §8 scenario. -/
def gehenK : Kelime :=
  { kelime := "gehen", tur := .verb, anlam := "gitmek",
    cekimler := some gehenCekimler, perfekt := some "gegangen" }

/-- A state holding an active (not yet answered) question. -/
def demoState : AppState :=
  { initState with currentQuestion := some (fallbackQuestion hausK) }


/-! ### Basic facts about the random draws -/

theorem randBelow_lt (g : Rng) (pos : Nat) {n : Nat} (h : n ≠ 0) :
    randBelow g pos n < n := by
  unfold randBelow
  rw [if_neg h]
  exact Nat.mod_lt _ (Nat.pos_of_ne_zero h)

theorem pickRandom_isSome {α : Type} (l : List α) (g : Rng) (pos : Nat)
    (h : l ≠ []) : ∃ x, pickRandom l g pos = some x ∧ x ∈ l := by
  have hn : l.length ≠ 0 := by
    simpa [List.length_eq_zero] using h
  have hlt := randBelow_lt g pos hn
  refine ⟨l[randBelow g pos l.length], ?_, List.getElem_mem hlt⟩
  simp [pickRandom, List.getElem?_eq_getElem hlt]

/-! ### The sampler never throws on a non-empty dictionary -/

theorem drawWrongOption_isOk (kelimeler : List Kelime) (type : String)
    (verb : Option String) (g : Rng) (pos : Nat) (h : kelimeler ≠ []) :
    ∃ r, drawWrongOption kelimeler type verb g pos = .ok r := by
  unfold drawWrongOption
  by_cases h1 : type = "anlam"
  · obtain ⟨x, hx, -⟩ := pickRandom_isSome kelimeler g pos h
    rw [if_pos h1, hx]
    exact ⟨_, rfl⟩
  rw [if_neg h1]
  by_cases h2 : type = "kelime"
  · obtain ⟨x, hx, -⟩ := pickRandom_isSome kelimeler g pos h
    rw [if_pos h2, hx]
    exact ⟨_, rfl⟩
  rw [if_neg h2]
  by_cases h3 : type = "çekim"
  · rw [if_pos h3]
    simp only []
    by_cases hv : (kelimeler.filter fun k =>
        decide (k.tur = Tur.verb) && decide (¬ verb = some k.kelime)
          && k.cekimler.isSome).length > 0
    · obtain ⟨v, hvx, -⟩ :=
        pickRandom_isSome _ g pos (List.length_pos.mp hv)
      rw [if_pos hv, hvx]
      cases hc : v.cekimler <;> simp [hc]
    · rw [if_neg hv]
      exact ⟨_, rfl⟩
  rw [if_neg h3]
  by_cases h4 : type = "perfekt"
  · rw [if_pos h4]
    simp only []
    by_cases hv : (kelimeler.filter fun k =>
        decide (k.tur = Tur.verb) && strTruthy k.perfekt
          && decide (¬ verb = some k.kelime)).length > 0
    · obtain ⟨v, hvx, -⟩ :=
        pickRandom_isSome _ g pos (List.length_pos.mp hv)
      rw [if_pos hv, hvx]
      exact ⟨_, rfl⟩
    · rw [if_neg hv]
      exact ⟨_, rfl⟩
  rw [if_neg h4]
  exact ⟨_, rfl⟩

theorem acceptOption_le_length (options : List String) (w : Option String) :
    options.length ≤ (acceptOption options w).length ∧
    (acceptOption options w).length ≤ options.length + 1 := by
  cases w with
  | none => exact ⟨Nat.le_refl _, Nat.le_succ _⟩
  | some s =>
    simp only [acceptOption]
    split_ifs <;> simp

theorem optionsLoop_ok (kelimeler : List Kelime) (type : String)
    (verb : Option String) (g : Rng) (h : kelimeler ≠ []) :
    ∀ (fuel pos : Nat) (options : List String),
      ∃ res posEnd a,
        optionsLoop kelimeler type verb g fuel pos options =
          .ok (res, posEnd, a) ∧
        a ≤ fuel ∧ (options.length ≤ 4 → res.length ≤ 4) ∧
        options.length ≤ res.length := by
  intro fuel
  induction fuel with
  | zero =>
    intro pos options
    exact ⟨options, pos, 0, rfl, Nat.le_refl _, fun h4 => h4, Nat.le_refl _⟩
  | succ n ih =>
    intro pos options
    by_cases hlen : options.length < 4
    · obtain ⟨⟨wrongOption, pos'⟩, hdraw⟩ :=
        drawWrongOption_isOk kelimeler type verb g pos h
      obtain ⟨res, posEnd, a, heq, ha, h4, hmono⟩ :=
        ih pos' (acceptOption options wrongOption)
      obtain ⟨hacc1, hacc2⟩ := acceptOption_le_length options wrongOption
      refine ⟨res, posEnd, a + 1, ?_, Nat.succ_le_succ ha, ?_, ?_⟩
      · simp only [optionsLoop, if_pos hlen, hdraw, heq]
      · intro hle
        exact h4 (by omega)
      · omega
    · exact ⟨options, pos, 0, by simp [optionsLoop, hlen], Nat.zero_le _,
        fun h4 => h4, Nat.le_refl _⟩

theorem optionsLoop_none (kelimeler : List Kelime) (type : String)
    (verb : Option String) (g : Rng)
    (hdraw : ∀ p, drawWrongOption kelimeler type verb g p = .ok (none, p)) :
    ∀ (fuel pos : Nat) (options : List String), options.length < 4 →
      optionsLoop kelimeler type verb g fuel pos options =
        .ok (options, pos, fuel) := by
  intro fuel
  induction fuel with
  | zero => intro pos options _; rfl
  | succ n ih =>
    intro pos options hlen
    simp only [optionsLoop, if_pos hlen, hdraw pos, acceptOption,
      ih pos options hlen]

theorem drawWrongOption_nil_cekim (verb : Option String) (g : Rng) (pos : Nat) :
    drawWrongOption [] "çekim" verb g pos = .ok (none, pos) := rfl

theorem drawWrongOption_nil_perfekt (verb : Option String) (g : Rng) (pos : Nat) :
    drawWrongOption [] "perfekt" verb g pos = .ok (none, pos) := rfl

/-! ### The filler step -/

theorem fillOne_length (options : List String) :
    (fillOne options).length = options.length + 1 := by
  unfold fillOne
  split_ifs <;> simp

theorem fillLoop_length :
    ∀ (fuel : Nat) (options : List String), options.length ≤ 4 →
      4 ≤ options.length + fuel → (fillLoop fuel options).length = 4 := by
  intro fuel
  induction fuel with
  | zero =>
    intro o h1 h2
    unfold fillLoop
    omega
  | succ n ih =>
    intro o h1 h2
    unfold fillLoop
    split_ifs with hlt
    · exact ih _ (by rw [fillOne_length]; omega) (by rw [fillOne_length]; omega)
    · omega

theorem fillOne_mem (options : List String) (x : String) (h : x ∈ options) :
    x ∈ fillOne options := by
  unfold fillOne
  split_ifs <;> simp [h]

theorem fillLoop_mem :
    ∀ (fuel : Nat) (options : List String) (x : String), x ∈ options →
      x ∈ fillLoop fuel options := by
  intro fuel
  induction fuel with
  | zero => intro o x h; exact h
  | succ n ih =>
    intro o x h
    unfold fillLoop
    split_ifs with hlt
    · exact ih _ _ (fillOne_mem o x h)
    · exact h

theorem mem_fallbackOptions_secenek (x : String) (h : x ∈ fallbackOptions) :
    ∃ j : Nat, x = "seçenek " ++ toString j := by
  simp only [fallbackOptions, List.mem_cons, List.not_mem_nil, or_false] at h
  rcases h with h | h | h | h
  · exact ⟨1, by rw [h]; decide⟩
  · exact ⟨2, by rw [h]; decide⟩
  · exact ⟨3, by rw [h]; decide⟩
  · exact ⟨4, by rw [h]; decide⟩

theorem fillOne_subset (options : List String) (hlen : options.length < 4) :
    ∀ x ∈ fillOne options,
      x ∈ options ∨ ∃ j : Nat, x = "seçenek " ++ toString j := by
  have hidx : options.length - 1 < fallbackOptions.length := by
    simp only [fallbackOptions, List.length_cons, List.length_singleton]
    omega
  obtain ⟨j, hj⟩ : ∃ j : Nat,
      fallbackOptions.getD (options.length - 1) "" = "seçenek " ++ toString j := by
    apply mem_fallbackOptions_secenek
    rw [List.getD_eq_getElem _ _ hidx]
    exact List.getElem_mem hidx
  intro x hx
  unfold fillOne at hx
  split_ifs at hx with hf
  · rcases List.mem_append.mp hx with h | h
    · exact Or.inl h
    · rw [List.mem_singleton] at h
      exact Or.inr ⟨options.length, h⟩
  · rcases List.mem_append.mp hx with h | h
    · exact Or.inl h
    · rw [List.mem_singleton] at h
      exact Or.inr ⟨j, by rw [h, hj]⟩

theorem fillLoop_subset :
    ∀ (fuel : Nat) (options : List String) (x : String),
      x ∈ fillLoop fuel options →
      x ∈ options ∨ ∃ j : Nat, x = "seçenek " ++ toString j := by
  intro fuel
  induction fuel with
  | zero => intro o x h; exact Or.inl h
  | succ n ih =>
    intro o x h
    unfold fillLoop at h
    split_ifs at h with hlt
    · rcases ih _ _ h with h2 | h2
      · exact fillOne_subset o hlt x h2
      · exact Or.inr h2
    · exact Or.inl h

/-! ### The shuffle is a permutation -/

theorem shuffleOptions_perm (g : Rng) :
    ∀ (fuel pos : Nat) (l : List String),
      List.Perm (shuffleOptions g fuel pos l) l := by
  intro fuel
  induction fuel with
  | zero => intro pos l; exact List.Perm.refl l
  | succ n ih =>
    intro pos l
    unfold shuffleOptions
    split_ifs with h0
    · exact List.Perm.refl l
    · have hlt := randBelow_lt g pos h0
      have hmem : l.getD (randBelow g pos l.length) "" ∈ l := by
        rw [List.getD_eq_getElem _ _ hlt]
        exact List.getElem_mem hlt
      exact ((ih (pos + 1) _).cons _).trans (List.perm_cons_erase hmem).symm

/-! ### The sampler as a whole -/

theorem fillIfNeeded_length (options : List String) (h1 : 1 ≤ options.length)
    (h4 : options.length ≤ 4) : (fillIfNeeded options).length = 4 := by
  unfold fillIfNeeded
  split_ifs with hlt
  · exact fillLoop_length 4 options h4 (by omega)
  · omega

theorem generateOptions_ok (kelimeler : List Kelime) (correctAnswer type : String)
    (verb : Option String) (g : Rng) (pos : Nat) (h : kelimeler ≠ []) :
    ∃ l p, generateOptions kelimeler correctAnswer type verb g pos = .ok (l, p) ∧
      l.length = 4 := by
  obtain ⟨res, posEnd, a, heq, -, h4, hmono⟩ :=
    optionsLoop_ok kelimeler type verb g h maxAttempts pos [correctAnswer]
  have hr4 : res.length ≤ 4 := h4 (by simp)
  have hr1 : 1 ≤ res.length := by simpa using hmono
  refine ⟨shuffleOptions g (fillIfNeeded res).length posEnd (fillIfNeeded res),
          posEnd + (fillIfNeeded res).length, ?_, ?_⟩
  · simp only [generateOptions, heq]
  · rw [(shuffleOptions_perm g _ _ _).length_eq]
    exact fillIfNeeded_length res hr1 hr4

theorem generateOptions_nil_filler (correctAnswer type : String)
    (verb : Option String) (g : Rng) (pos : Nat)
    (hdraw : ∀ p, drawWrongOption [] type verb g p = .ok (none, p)) :
    ∃ l p, generateOptions [] correctAnswer type verb g pos = .ok (l, p) ∧
      l.length = 4 ∧ correctAnswer ∈ l ∧
      ∀ x ∈ l, x = correctAnswer ∨ ∃ j : Nat, x = "seçenek " ++ toString j := by
  have hloop := optionsLoop_none [] type verb g hdraw maxAttempts pos
    [correctAnswer] (by simp)
  have hfill : fillIfNeeded [correctAnswer] = fillLoop 4 [correctAnswer] := by
    unfold fillIfNeeded
    rw [if_pos (by simp)]
  have hperm := shuffleOptions_perm g (fillIfNeeded [correctAnswer]).length pos
    (fillIfNeeded [correctAnswer])
  refine ⟨shuffleOptions g (fillIfNeeded [correctAnswer]).length pos
            (fillIfNeeded [correctAnswer]),
          pos + (fillIfNeeded [correctAnswer]).length,
          by simp only [generateOptions, hloop], ?_, ?_, ?_⟩
  · rw [hperm.length_eq, hfill]
    exact fillLoop_length 4 _ (by simp) (by simp)
  · refine hperm.mem_iff.mpr ?_
    rw [hfill]
    exact fillLoop_mem 4 _ _ (by simp)
  · intro x hx
    have hx2 := hperm.subset hx
    rw [hfill] at hx2
    rcases fillLoop_subset 4 [correctAnswer] x hx2 with h | h
    · exact Or.inl (by simpa using h)
    · exact Or.inr h

/-! ### The question builder -/

theorem strTruthy_isSome (o : Option String) (h : strTruthy o = true) :
    o.isSome = true := by
  cases o with
  | none => simp [strTruthy] at h
  | some s => rfl

theorem kelimeAnlamQuestion_type (kelimeler : List Kelime)
    (randomKelime : Kelime) (g : Rng) (pos : Nat) (q : Question) (p : Nat)
    (h : kelimeAnlamQuestion kelimeler randomKelime g pos = .ok (q, p)) :
    q.type = "kelime-anlam" := by
  unfold kelimeAnlamQuestion at h
  cases hgen : generateOptions kelimeler randomKelime.anlam "anlam" none g pos with
  | error e =>
    rw [hgen] at h
    exact absurd h (by simp)
  | ok r =>
    obtain ⟨options, pos'⟩ := r
    rw [hgen] at h
    simp only [Except.ok.injEq, Prod.mk.injEq] at h
    obtain ⟨hq, -⟩ := h
    rw [← hq]

theorem buildQuestion_ok_type (kelimeler : List Kelime) (randomKelime : Kelime)
    (questionType : String) (g : Rng) (pos : Nat) (q : Question) (p : Nat)
    (h : buildQuestion kelimeler randomKelime questionType g pos = .ok (q, p)) :
    q.type = "kelime-anlam" ∨ q.type = "anlam-kelime" ∨
    (q.type = "çekim" ∧ randomKelime.tur = Tur.verb ∧
      randomKelime.cekimler.isSome = true) ∨
    (q.type = "perfekt" ∧ randomKelime.tur = Tur.verb ∧
      randomKelime.perfekt.isSome = true) := by
  unfold buildQuestion at h
  split_ifs at h with h1 h2 h3 h4 h5
  · exact Or.inl (kelimeAnlamQuestion_type _ _ _ _ _ _ h)
  · right; left
    cases hgen : generateOptions kelimeler randomKelime.kelime "kelime" none g pos with
    | error e =>
      rw [hgen] at h
      exact absurd h (by simp)
    | ok r =>
      obtain ⟨options, pos'⟩ := r
      rw [hgen] at h
      simp only [Except.ok.injEq, Prod.mk.injEq] at h
      obtain ⟨hq, -⟩ := h
      rw [← hq]
  · rcases hck : randomKelime.cekimler with - | t
    · rw [hck] at h
      cases hd : decide (randomKelime.tur = Tur.verb) <;> rw [hd] at h <;>
        exact Or.inl (kelimeAnlamQuestion_type _ _ _ _ _ _ h)
    · rw [hck] at h
      cases hd : decide (randomKelime.tur = Tur.verb) with
      | false =>
        rw [hd] at h
        exact Or.inl (kelimeAnlamQuestion_type _ _ _ _ _ _ h)
      | true =>
        rw [hd] at h
        right; right; left
        refine ⟨?_, of_decide_eq_true hd, rfl⟩
        dsimp only at h
        cases hgen : generateOptions kelimeler
            (t.get ((pickRandom KISILER g pos).getD Kisi.ich)) "çekim"
            (some randomKelime.kelime) g (pos + 1) with
        | error e =>
          rw [hgen] at h
          exact absurd h (by simp)
        | ok r =>
          obtain ⟨options, pos'⟩ := r
          rw [hgen] at h
          simp only [Except.ok.injEq, Prod.mk.injEq] at h
          obtain ⟨hq, -⟩ := h
          rw [← hq]
  · right; right; right
    simp only [Bool.and_eq_true] at h5
    obtain ⟨hst, hde⟩ := h5
    refine ⟨?_, of_decide_eq_true hde, strTruthy_isSome _ hst⟩
    cases hgen : generateOptions kelimeler randomKelime.kelime "kelime" none g pos with
    | error e =>
      rw [hgen] at h
      exact absurd h (by simp)
    | ok r =>
      obtain ⟨options, pos'⟩ := r
      rw [hgen] at h
      simp only [Except.ok.injEq, Prod.mk.injEq] at h
      obtain ⟨hq, -⟩ := h
      rw [← hq]
  · exact Or.inl (kelimeAnlamQuestion_type _ _ _ _ _ _ h)
  · exact Or.inl (kelimeAnlamQuestion_type _ _ _ _ _ _ h)

/-! ### Session counters -/

theorem applyGenerateQuestion_counters (kelimeler : List Kelime) (g : Rng)
    (pos : Nat) (s : AppState) :
    (applyGenerateQuestion kelimeler g pos s).score = s.score ∧
    (applyGenerateQuestion kelimeler g pos s).totalQuestions =
      s.totalQuestions ∧
    (applyGenerateQuestion kelimeler g pos s).streak = s.streak := by
  unfold applyGenerateQuestion
  cases generateQuestion kelimeler g pos
  all_goals simp

theorem nextQuestion_counters (kelimeler : List Kelime) (g : Rng)
    (pos : Nat) (s : AppState) :
    (nextQuestion kelimeler g pos s).score = s.score ∧
    (nextQuestion kelimeler g pos s).totalQuestions = s.totalQuestions := by
  unfold nextQuestion
  obtain ⟨h1, h2, -⟩ := applyGenerateQuestion_counters kelimeler g pos
    { s with showResult := false, selectedAnswer := none }
  exact ⟨by rw [h1], by rw [h2]⟩

theorem resetScoreConfirmed_counters (kelimeler : List Kelime) (g : Rng)
    (pos : Nat) (s : AppState) :
    (resetScoreConfirmed kelimeler g pos s).score = 0 ∧
    (resetScoreConfirmed kelimeler g pos s).totalQuestions = 0 := by
  unfold resetScoreConfirmed
  obtain ⟨h1, h2, -⟩ := applyGenerateQuestion_counters kelimeler g pos
    { s with score := 0, totalQuestions := 0, streak := 0 }
  exact ⟨by rw [h1], by rw [h2]⟩

theorem score_le_total (kelimeler : List Kelime) (s : AppState)
    (h : Reachable kelimeler s) : s.score ≤ s.totalQuestions := by
  induction h with
  | init => exact Nat.le_refl 0
  | gen s g pos hs ih =>
    obtain ⟨h1, h2, -⟩ := applyGenerateQuestion_counters kelimeler g pos s
    omega
  | press s a hs ih =>
    unfold pressOption
    split_ifs
    · exact ih
    · unfold checkAnswer
      cases hq : s.currentQuestion with
      | none => exact ih
      | some q =>
        dsimp only
        split_ifs <;> omega
  | next s g pos hs ih =>
    obtain ⟨h1, h2⟩ := nextQuestion_counters kelimeler g pos s
    omega
  | reset s g pos hs ih =>
    obtain ⟨h1, h2⟩ := resetScoreConfirmed_counters kelimeler g pos s
    omega

/-! ### The binary64 rounding model -/

theorem log2Fuel_spec :
    ∀ (fuel n : Nat), 1 ≤ n → n ≤ fuel →
      2 ^ log2Fuel fuel n ≤ n ∧ n < 2 ^ (log2Fuel fuel n + 1) := by
  intro fuel
  induction fuel with
  | zero => intro n h1 h2; omega
  | succ f ih =>
    intro n h1 h2
    unfold log2Fuel
    split_ifs with h
    · obtain ⟨ha, hb⟩ := ih (n / 2) (by omega) (by omega)
      have e1 : 2 ^ (log2Fuel f (n / 2) + 1) = 2 * 2 ^ log2Fuel f (n / 2) := by
        rw [pow_succ]; ring
      have e2 : 2 ^ (log2Fuel f (n / 2) + 1 + 1) =
          2 * 2 ^ (log2Fuel f (n / 2) + 1) := by
        rw [pow_succ _ (log2Fuel f (n / 2) + 1)]; ring
      omega
    · have hn : n = 1 := by omega
      subst hn
      exact ⟨by norm_num, by norm_num⟩

theorem natLog2_spec (n : Nat) (h : 1 ≤ n) :
    2 ^ natLog2 n ≤ n ∧ n < 2 ^ (natLog2 n + 1) :=
  log2Fuel_spec n n h (Nat.le_refl n)

theorem qlog2_spec (a : ℚ) (ha : 0 < a) :
    (2 : ℚ) ^ qlog2 a ≤ a ∧ a < 2 ^ (qlog2 a + 1) := by
  have hnum : 0 < a.num := Rat.num_pos.mpr ha
  have hn1 : 1 ≤ a.num.toNat := by omega
  have hd1 : 1 ≤ a.den := a.den_pos
  obtain ⟨hna, hnb⟩ := natLog2_spec a.num.toNat hn1
  obtain ⟨hda, hdb⟩ := natLog2_spec a.den hd1
  have hdq : (0 : ℚ) < (a.den : ℚ) := by exact_mod_cast hd1
  have ha_eq : a = (a.num.toNat : ℚ) / (a.den : ℚ) := by
    rw [show ((a.num.toNat : ℚ)) = ((a.num : ℤ) : ℚ) by
        exact_mod_cast congrArg (fun z : ℤ => (z : ℚ))
          (Int.toNat_of_nonneg hnum.le)]
    exact (Rat.num_div_den a).symm
  have c1 : ((a.num.toNat : ℕ) : ℚ) < (2 : ℚ) ^ ((natLog2 a.num.toNat : ℤ) + 1) := by
    rw [show ((natLog2 a.num.toNat : ℤ) + 1) = ((natLog2 a.num.toNat + 1 : ℕ) : ℤ)
        by push_cast; ring, zpow_natCast]
    exact_mod_cast hnb
  have c2 : (2 : ℚ) ^ ((natLog2 a.num.toNat : ℤ)) ≤ ((a.num.toNat : ℕ) : ℚ) := by
    rw [zpow_natCast]
    exact_mod_cast hna
  have c3 : (2 : ℚ) ^ ((natLog2 a.den : ℤ)) ≤ ((a.den : ℕ) : ℚ) := by
    rw [zpow_natCast]
    exact_mod_cast hda
  have c4 : ((a.den : ℕ) : ℚ) < (2 : ℚ) ^ ((natLog2 a.den : ℤ) + 1) := by
    rw [show ((natLog2 a.den : ℤ) + 1) = ((natLog2 a.den + 1 : ℕ) : ℤ)
        by push_cast; ring, zpow_natCast]
    exact_mod_cast hdb
  have hA : a < 2 ^ ((natLog2 a.num.toNat : ℤ) - (natLog2 a.den : ℤ) + 1) := by
    conv_lhs => rw [ha_eq]
    rw [div_lt_iff₀ hdq]
    calc ((a.num.toNat : ℕ) : ℚ)
        < (2 : ℚ) ^ ((natLog2 a.num.toNat : ℤ) + 1) := c1
      _ = 2 ^ ((natLog2 a.num.toNat : ℤ) - (natLog2 a.den : ℤ) + 1) *
            2 ^ ((natLog2 a.den : ℤ)) := by
          rw [← zpow_add₀ (two_ne_zero)]
          congr 1
          ring
      _ ≤ 2 ^ ((natLog2 a.num.toNat : ℤ) - (natLog2 a.den : ℤ) + 1) *
            ((a.den : ℕ) : ℚ) := by
          exact mul_le_mul_of_nonneg_left c3 (zpow_pos two_pos _).le
  have hB : (2 : ℚ) ^ ((natLog2 a.num.toNat : ℤ) - (natLog2 a.den : ℤ) - 1) < a := by
    conv_rhs => rw [ha_eq]
    rw [lt_div_iff₀ hdq]
    calc (2 : ℚ) ^ ((natLog2 a.num.toNat : ℤ) - (natLog2 a.den : ℤ) - 1) *
          ((a.den : ℕ) : ℚ)
        < 2 ^ ((natLog2 a.num.toNat : ℤ) - (natLog2 a.den : ℤ) - 1) *
            2 ^ ((natLog2 a.den : ℤ) + 1) := by
          exact mul_lt_mul_of_pos_left c4 (zpow_pos two_pos _)
      _ = 2 ^ ((natLog2 a.num.toNat : ℤ)) := by
          rw [← zpow_add₀ (two_ne_zero)]
          congr 1
          ring
      _ ≤ ((a.num.toNat : ℕ) : ℚ) := c2
  unfold qlog2
  split_ifs with hc
  · constructor
    · exact hB.le
    · rw [sub_add_cancel]
      exact hc
  · exact ⟨le_of_not_lt hc, hA⟩

theorem qlog2_le (a : ℚ) (k : ℤ) (ha : 0 < a) (h : a < 2 ^ (k + 1)) :
    qlog2 a ≤ k := by
  obtain ⟨h1, -⟩ := qlog2_spec a ha
  by_contra hlt
  push_neg at hlt
  have h2 : (2 : ℚ) ^ (k + 1) ≤ 2 ^ qlog2 a := zpow_le_zpow_right₀ one_le_two hlt
  linarith

theorem rne_bounds (x : ℚ) :
    x - 1 / 2 ≤ (rne x : ℚ) ∧ (rne x : ℚ) ≤ x + 1 / 2 ∧ ⌊x⌋ ≤ rne x := by
  have hf1 : ((⌊x⌋ : ℤ) : ℚ) ≤ x := Int.floor_le x
  have hf2 : x < (⌊x⌋ : ℚ) + 1 := Int.lt_floor_add_one x
  unfold rne
  split_ifs with h1 h2 h3
  · exact ⟨by linarith, by linarith, le_refl _⟩
  · refine ⟨by push_cast; linarith, by push_cast; linarith, by omega⟩
  · have h4 : x - ⌊x⌋ = 1 / 2 := by linarith
    exact ⟨by linarith, by linarith, le_refl _⟩
  · have h4 : x - ⌊x⌋ = 1 / 2 := by linarith
    refine ⟨by push_cast; linarith, by push_cast; linarith, by omega⟩

theorem fl64pos_nonneg (a : ℚ) (ha : 0 ≤ a) : 0 ≤ fl64pos a := by
  unfold fl64pos
  have hu : (0 : ℚ) < 2 ^ (max (qlog2 a) (-1022) - 52) := zpow_pos two_pos _
  apply mul_nonneg _ hu.le
  have h3 := (rne_bounds (a / 2 ^ (max (qlog2 a) (-1022) - 52))).2.2
  have hfl : (0 : ℤ) ≤ ⌊a / 2 ^ (max (qlog2 a) (-1022) - 52)⌋ :=
    Int.floor_nonneg.mpr (by positivity)
  exact_mod_cast le_trans hfl h3

theorem fl64_nonneg (q : ℚ) (hq : 0 ≤ q) : 0 ≤ fl64 q := by
  unfold fl64
  split_ifs with h0 hpos
  · exact le_refl 0
  · exact fl64pos_nonneg q hq
  · exact absurd (lt_of_le_of_ne hq (Ne.symm h0)) hpos

theorem fl64pos_le (a : ℚ) (k : ℤ) (ha : 0 < a) (hk : -1022 ≤ k)
    (hb : a < 2 ^ (k + 1)) : fl64pos a ≤ a + 2 ^ (k - 53) := by
  have hek : max (qlog2 a) (-1022) ≤ k := max_le (qlog2_le a k ha hb) hk
  have hu : (0 : ℚ) < 2 ^ (max (qlog2 a) (-1022) - 52) := zpow_pos two_pos _
  have hr := (rne_bounds (a / 2 ^ (max (qlog2 a) (-1022) - 52))).2.1
  have hmono : (2 : ℚ) ^ (max (qlog2 a) (-1022) - 52) ≤ 2 ^ (k - 52) :=
    zpow_le_zpow_right₀ one_le_two (by omega)
  have hhalf : (2 : ℚ) ^ (k - 52) = 2 ^ (k - 53) * 2 := by
    rw [← zpow_add_one₀ two_ne_zero]
    congr 1
    ring
  unfold fl64pos
  calc (rne (a / 2 ^ (max (qlog2 a) (-1022) - 52)) : ℚ) *
        2 ^ (max (qlog2 a) (-1022) - 52)
      ≤ (a / 2 ^ (max (qlog2 a) (-1022) - 52) + 1 / 2) *
          2 ^ (max (qlog2 a) (-1022) - 52) :=
        mul_le_mul_of_nonneg_right hr hu.le
    _ = a + 2 ^ (max (qlog2 a) (-1022) - 52) / 2 := by
        field_simp
        ring
    _ ≤ a + 2 ^ (k - 53) := by
        have : (2 : ℚ) ^ (max (qlog2 a) (-1022) - 52) / 2 ≤ 2 ^ (k - 53) := by
          rw [div_le_iff₀ (by norm_num : (0 : ℚ) < 2), ← hhalf]
          exact hmono
        linarith

theorem fl64_le (q : ℚ) (k : ℤ) (hq : 0 ≤ q) (hk : -1022 ≤ k)
    (hb : q < 2 ^ (k + 1)) : fl64 q ≤ q + 2 ^ (k - 53) := by
  unfold fl64
  split_ifs with h0 hpos
  · have hp : (0 : ℚ) < 2 ^ (k - 53) := zpow_pos two_pos _
    linarith
  · exact fl64pos_le q k hpos hk hb
  · exact absurd (lt_of_le_of_ne hq (Ne.symm h0)) hpos

theorem getSuccessRate_bounds (score totalQuestions : Nat)
    (h : score ≤ totalQuestions) :
    0 ≤ getSuccessRate score totalQuestions ∧
    getSuccessRate score totalQuestions ≤ 100 := by
  unfold getSuccessRate
  split_ifs with ht
  · have htq : (0 : ℚ) < (totalQuestions : ℚ) := by exact_mod_cast ht
    have hx0 : (0 : ℚ) ≤ (score : ℚ) / (totalQuestions : ℚ) := by positivity
    have hx1 : (score : ℚ) / (totalQuestions : ℚ) ≤ 1 := by
      rw [div_le_one htq]
      exact_mod_cast h
    have hp53 : (2 : ℚ) ^ ((0 : ℤ) - 53) = 1 / 9007199254740992 := by
      rw [zpow_sub₀ two_ne_zero, zpow_zero]
      norm_num
    have hp47 : (2 : ℚ) ^ ((6 : ℤ) - 53) = 1 / 140737488355328 := by
      rw [zpow_sub₀ two_ne_zero]
      norm_num
    have hy0 : 0 ≤ fl64 ((score : ℚ) / (totalQuestions : ℚ)) :=
      fl64_nonneg _ hx0
    have hy1 : fl64 ((score : ℚ) / (totalQuestions : ℚ)) ≤
        (score : ℚ) / (totalQuestions : ℚ) + 2 ^ ((0 : ℤ) - 53) := by
      apply fl64_le _ 0 hx0 (by norm_num)
      have h2 : (2 : ℚ) ^ ((0 : ℤ) + 1) = 2 := by norm_num
      linarith
    have hb0 : 0 ≤ fl64 ((score : ℚ) / (totalQuestions : ℚ)) * 100 :=
      mul_nonneg hy0 (by norm_num)
    have hb1 : fl64 ((score : ℚ) / (totalQuestions : ℚ)) * 100 ≤
        100 + 100 * (1 / 9007199254740992) := by
      rw [hp53] at hy1
      linarith
    have hz0 : 0 ≤ fl64 (fl64 ((score : ℚ) / (totalQuestions : ℚ)) * 100) :=
      fl64_nonneg _ hb0
    have hz1 : fl64 (fl64 ((score : ℚ) / (totalQuestions : ℚ)) * 100) ≤
        fl64 ((score : ℚ) / (totalQuestions : ℚ)) * 100 + 2 ^ ((6 : ℤ) - 53) := by
      apply fl64_le _ 6 hb0 (by norm_num)
      have h2 : (2 : ℚ) ^ ((6 : ℤ) + 1) = 128 := by
        norm_num
      linarith
    have hzlt : fl64 (fl64 ((score : ℚ) / (totalQuestions : ℚ)) * 100) <
        100 + 1 / 2 := by
      rw [hp47] at hz1
      linarith
    constructor
    · rw [round_eq]
      exact Int.floor_nonneg.mpr (by linarith)
    · rw [round_eq]
      have h101 : fl64 (fl64 ((score : ℚ) / (totalQuestions : ℚ)) * 100) +
          1 / 2 < ((101 : ℤ) : ℚ) := by
        push_cast
        linarith
      have hfl := Int.floor_lt.mpr h101
      omega
  · exact ⟨Int.le_refl 0, by norm_num⟩

/-! ### Bridging lemmas between the builder and its try-block -/

theorem generateQuestionWith_ok (kelimeler : List Kelime)
    (randomKelime : Kelime) (g : Rng) (pos : Nat) (q' : Question) (p : Nat)
    (hb : buildQuestion kelimeler randomKelime (selectType randomKelime g pos)
        g (pos + 1) = .ok (q', p)) :
    generateQuestionWith kelimeler randomKelime g pos = q' := by
  unfold generateQuestionWith
  rw [hb]

theorem generateQuestionWith_error (kelimeler : List Kelime)
    (randomKelime : Kelime) (g : Rng) (pos : Nat) (e : Unit)
    (hb : buildQuestion kelimeler randomKelime (selectType randomKelime g pos)
        g (pos + 1) = .error e) :
    generateQuestionWith kelimeler randomKelime g pos =
      fallbackQuestion randomKelime := by
  unfold generateQuestionWith
  rw [hb]

/-! ### The claims -/

/-- C1: the claim states that for every non-empty dictionary
`generateQuestion` yields exactly 4 pairwise-distinct options with the
correct answer occurring exactly once. This fails on the code: for the
one-noun dictionary whose meaning is the string "seçenek 1" (with the
all-zeros oracle), the filler dedup slip (line 143 pushes
`seçenek ${options.length}`, the very string just rejected as a
duplicate) produces the correct answer twice among the 4 options. -/
theorem generateQuestion_duplicate_options :
    (generateQuestion [{ kelime := "Haus", tur := Tur.noun, anlam := "seçenek 1" }]
        rng0 0).map (fun q => (q.correctAnswer, q.options)) =
      some ("seçenek 1",
        ["seçenek 1", "seçenek 1", "seçenek 2", "seçenek 3"]) ∧
    ¬ (["seçenek 1", "seçenek 1", "seçenek 2", "seçenek 3"] :
        List String).Nodup ∧
    (["seçenek 1", "seçenek 1", "seçenek 2", "seçenek 3"] :
        List String).count "seçenek 1" = 2 :=
  ⟨rfl, by decide, by decide⟩

/-- C2: the claim states that `generateOptions` never returns duplicate
entries. This fails on the code: with an empty dictionary, mode `çekim`
and correct answer "seçenek 1", the filler step rejects the filler
"seçenek 1" as a duplicate and then pushes the identical substitute
`"seçenek " + options.length` = "seçenek 1", so the result contains
"seçenek 1" twice. -/
theorem generateOptions_filler_duplicate :
    generateOptions [] "seçenek 1" "çekim" none rng0 0 =
      .ok (["seçenek 1", "seçenek 1", "seçenek 2", "seçenek 3"], 4) ∧
    ¬ (["seçenek 1", "seçenek 1", "seçenek 2", "seçenek 3"] :
        List String).Nodup :=
  ⟨rfl, by decide⟩

/-- C3 (counterexample): contrary to the claim, `generateOptions` does
raise on a zero-entry dictionary in mode `anlam`: the first attempt
indexes the empty array and projects `.anlam` of `undefined`, a thrown
TypeError (here `.error ()`). -/
theorem generateOptions_empty_anlam_throws :
    generateOptions [] "x" "anlam" none rng0 0 = .error () := rfl

/-- C3 (amended): `generateOptions` never raises when the dictionary is
non-empty (any mode); with a zero-entry dictionary it returns normally in
modes `çekim` and `perfekt`, yielding exactly 4 options that are the
correct answer plus filler-based strings only, whereas modes `anlam` and
`kelime` throw on a zero-entry dictionary. -/
theorem generateOptions_no_throw (kelimeler : List Kelime)
    (correctAnswer type : String) (verb : Option String) (g : Rng) (pos : Nat)
    (h : kelimeler ≠ [] ∨ type = "çekim" ∨ type = "perfekt") :
    ∃ l p, generateOptions kelimeler correctAnswer type verb g pos =
        .ok (l, p) ∧
      (kelimeler = [] → l.length = 4 ∧ correctAnswer ∈ l ∧
        ∀ x ∈ l, x = correctAnswer ∨ ∃ j : Nat, x = "seçenek " ++ toString j) := by
  by_cases hk : kelimeler = []
  · subst hk
    rcases h with h | h | h
    · exact absurd rfl h
    · subst h
      obtain ⟨l, p, heq, h1, h2, h3⟩ := generateOptions_nil_filler correctAnswer
        "çekim" verb g pos (drawWrongOption_nil_cekim verb g)
      exact ⟨l, p, heq, fun _ => ⟨h1, h2, h3⟩⟩
    · subst h
      obtain ⟨l, p, heq, h1, h2, h3⟩ := generateOptions_nil_filler correctAnswer
        "perfekt" verb g pos (drawWrongOption_nil_perfekt verb g)
      exact ⟨l, p, heq, fun _ => ⟨h1, h2, h3⟩⟩
  · obtain ⟨l, p, heq, -⟩ :=
      generateOptions_ok kelimeler correctAnswer type verb g pos hk
    exact ⟨l, p, heq, fun hnil => absurd hnil hk⟩

/-- Witness for C3 (amended) at the empty dictionary in mode `çekim`. -/
theorem generateOptions_no_throw_witness :
    ∃ l p, generateOptions [] "x" "çekim" none rng0 0 = .ok (l, p) ∧
      (([] : List Kelime) = [] → l.length = 4 ∧ "x" ∈ l ∧
        ∀ y ∈ l, y = "x" ∨ ∃ j : Nat, y = "seçenek " ++ toString j) :=
  generateOptions_no_throw [] "x" "çekim" none rng0 0 (Or.inr (Or.inl rfl))

/-- C4: whenever the try-block of the builder throws, the builder
recovers locally and returns the fallback question of type
`kelime-anlam`, whose options are exactly the correct answer followed by
the three literal strings "yanlış 1", "yanlış 2", "yanlış 3" (the
`fallbackQuestion` definition does not invoke `generateOptions`); the
result type of `generateQuestionWith` being plain `Question` embeds the
fact that this recovery itself never raises, so no error reaches the
caller. -/
theorem generateQuestion_fallback_on_error (kelimeler : List Kelime)
    (randomKelime : Kelime) (g : Rng) (pos : Nat)
    (h : buildQuestion kelimeler randomKelime (selectType randomKelime g pos)
        g (pos + 1) = .error ()) :
    generateQuestionWith kelimeler randomKelime g pos =
      fallbackQuestion randomKelime ∧
    (fallbackQuestion randomKelime).options =
      [randomKelime.anlam, "yanlış 1", "yanlış 2", "yanlış 3"] ∧
    (fallbackQuestion randomKelime).type = "kelime-anlam" :=
  ⟨generateQuestionWith_error kelimeler randomKelime g pos () h, rfl, rfl⟩

/-- Witness for C4: with an empty dictionary the try-block does throw
(mode `anlam` on an empty array), and the builder returns the fallback. -/
theorem generateQuestion_fallback_on_error_witness :
    buildQuestion [] hausK (selectType hausK rng0 0) rng0 1 = .error () ∧
    (generateQuestionWith [] hausK rng0 0 = fallbackQuestion hausK ∧
      (fallbackQuestion hausK).options =
        [hausK.anlam, "yanlış 1", "yanlış 2", "yanlış 3"] ∧
      (fallbackQuestion hausK).type = "kelime-anlam") :=
  ⟨rfl, generateQuestion_fallback_on_error [] hausK rng0 0 rfl⟩

/-- C5: once a question is answered (`showResult` holds after the first
press), pressing an option a second time is a no-op: the state — its
counters and its current question included — is unchanged. -/
theorem second_answer_noop (s : AppState) (a b : String)
    (hq : s.currentQuestion.isSome = true) (hr : s.showResult = false) :
    pressOption (pressOption s a) b = pressOption s a := by
  obtain ⟨q, hq2⟩ := Option.isSome_iff_exists.mp hq
  simp [pressOption, checkAnswer, hr, hq2]

/-- Witness for C5 on a concrete active state. -/
theorem second_answer_noop_witness :
    demoState.currentQuestion.isSome = true ∧ demoState.showResult = false ∧
    pressOption (pressOption demoState "ev") "x" = pressOption demoState "ev" :=
  ⟨rfl, rfl, second_answer_noop demoState "ev" "x" rfl rfl⟩

/-- C6: every question the builder produces with type tag `çekim` has a
subject that is a verb with a present conjugation table, and every
question with type tag `perfekt` has a subject that is a verb with a
present perfect-tense form; subjects lacking the capability never yield
those type tags (contrapositive of the same statement). -/
theorem question_type_capability (kelimeler : List Kelime)
    (randomKelime : Kelime) (g : Rng) (pos : Nat) (q : Question)
    (h : generateQuestionWith kelimeler randomKelime g pos = q) :
    (q.type = "çekim" →
      randomKelime.tur = Tur.verb ∧ randomKelime.cekimler.isSome = true) ∧
    (q.type = "perfekt" →
      randomKelime.tur = Tur.verb ∧ randomKelime.perfekt.isSome = true) := by
  subst h
  cases hb : buildQuestion kelimeler randomKelime
      (selectType randomKelime g pos) g (pos + 1) with
  | error e =>
    rw [generateQuestionWith_error kelimeler randomKelime g pos e hb]
    constructor <;> intro hty <;> simp [fallbackQuestion] at hty
  | ok r =>
    obtain ⟨q', p⟩ := r
    rw [generateQuestionWith_ok kelimeler randomKelime g pos q' p hb]
    rcases buildQuestion_ok_type _ _ _ _ _ _ _ hb with
      ht | ht | ⟨ht, m1, m2⟩ | ⟨ht, m1, m2⟩
    · constructor <;> intro hty <;> exact absurd (ht.symm.trans hty) (by decide)
    · constructor <;> intro hty <;> exact absurd (ht.symm.trans hty) (by decide)
    · refine ⟨fun _ => ⟨m1, m2⟩, fun hty => ?_⟩
      exact absurd (ht.symm.trans hty) (by decide)
    · refine ⟨fun hty => ?_, fun _ => ⟨m1, m2⟩⟩
      exact absurd (ht.symm.trans hty) (by decide)

/-- Witness for C6 at a concrete verb subject. -/
theorem question_type_capability_witness :
    ((generateQuestionWith [gehenK] gehenK rng0 0).type = "çekim" →
      gehenK.tur = Tur.verb ∧ gehenK.cekimler.isSome = true) ∧
    ((generateQuestionWith [gehenK] gehenK rng0 0).type = "perfekt" →
      gehenK.tur = Tur.verb ∧ gehenK.perfekt.isSome = true) :=
  question_type_capability [gehenK] gehenK rng0 0 _ rfl

/-- C7: answering an active question increments `totalQuestions` by 1
always; a correct answer increments both `score` and `streak` by 1, and
an incorrect one leaves `score` unchanged and resets `streak` to 0. -/
theorem checkAnswer_counters (s : AppState) (q : Question) (a : String)
    (hq : s.currentQuestion = some q) (hr : s.showResult = false) :
    (pressOption s a).totalQuestions = s.totalQuestions + 1 ∧
    (a = q.correctAnswer →
      (pressOption s a).score = s.score + 1 ∧
      (pressOption s a).streak = s.streak + 1) ∧
    (¬ a = q.correctAnswer →
      (pressOption s a).score = s.score ∧ (pressOption s a).streak = 0) := by
  refine ⟨?_, fun hc => ?_, fun hc => ?_⟩
  · simp [pressOption, checkAnswer, hq, hr]
  · simp [pressOption, checkAnswer, hq, hr, hc]
  · simp [pressOption, checkAnswer, hq, hr, hc]

/-- Witness for C7 on a concrete active state. -/
theorem checkAnswer_counters_witness :
    (pressOption demoState "ev").totalQuestions =
      demoState.totalQuestions + 1 ∧
    ("ev" = (fallbackQuestion hausK).correctAnswer →
      (pressOption demoState "ev").score = demoState.score + 1 ∧
      (pressOption demoState "ev").streak = demoState.streak + 1) ∧
    (¬ "ev" = (fallbackQuestion hausK).correctAnswer →
      (pressOption demoState "ev").score = demoState.score ∧
      (pressOption demoState "ev").streak = 0) :=
  checkAnswer_counters demoState (fallbackQuestion hausK) "ev" rfl rfl

/-- C8: for a non-empty dictionary every sampler call completes: the
candidate-drawing loop returns after at most `maxAttempts = 20` attempts,
the filler step completes the option list to exactly 4 entries, and the
question builder returns a question. -/
theorem sampler_and_builder_terminate (kelimeler : List Kelime)
    (correctAnswer type : String) (verb : Option String) (g : Rng) (pos : Nat)
    (h : kelimeler ≠ []) :
    (∃ res posEnd a,
      optionsLoop kelimeler type verb g maxAttempts pos [correctAnswer] =
        .ok (res, posEnd, a) ∧ a ≤ maxAttempts) ∧
    (∃ l p, generateOptions kelimeler correctAnswer type verb g pos =
      .ok (l, p) ∧ l.length = 4) ∧
    (∃ q, generateQuestion kelimeler g pos = some q) := by
  refine ⟨?_, generateOptions_ok kelimeler correctAnswer type verb g pos h, ?_⟩
  · obtain ⟨res, posEnd, a, heq, ha, -, -⟩ :=
      optionsLoop_ok kelimeler type verb g h maxAttempts pos [correctAnswer]
    exact ⟨res, posEnd, a, heq, ha⟩
  · unfold generateQuestion
    rw [if_neg (fun hl => h (List.length_eq_zero.mp hl))]
    exact ⟨_, rfl⟩

/-- Witness for C8 on a one-entry dictionary. -/
theorem sampler_and_builder_terminate_witness :
    (∃ res posEnd a,
      optionsLoop [hausK] "anlam" none rng0 maxAttempts 0 ["x"] =
        .ok (res, posEnd, a) ∧ a ≤ maxAttempts) ∧
    (∃ l p, generateOptions [hausK] "x" "anlam" none rng0 0 =
      .ok (l, p) ∧ l.length = 4) ∧
    (∃ q, generateQuestion [hausK] rng0 0 = some q) :=
  sampler_and_builder_terminate [hausK] "x" "anlam" none rng0 0
    (List.cons_ne_nil _ _)

set_option maxRecDepth 20000 in
/-- C9: the claim asserts the displayed rate equals
`round (100 * score / totalQuestions)`. This fails on the code: at
score 29 of 200 the binary64 evaluation of `(29 / 200) * 100` yields
`14.5 - 2 ^ (-49)` (printed 14.499999999999998) and `Math.round` gives
14, while the claimed formula rounds the exact 14.5 up to 15. The
`totalQuestions = 0 → 0` half of the claim does hold. -/
theorem getSuccessRate_float_deviation :
    getSuccessRate 29 200 = 14 ∧
    round (100 * ((29 : Nat) : ℚ) / ((200 : Nat) : ℚ)) = 15 ∧
    getSuccessRate 29 0 = 0 :=
  ⟨by decide, by decide, rfl⟩

/-- C10: in every reachable state the invariant
`score ≤ totalQuestions` holds (initially both are 0; an answer press
increments `totalQuestions` and increments `score` by at most 1; the
reset zeroes both; question generation touches neither), and consequently
the success rate always lies between 0 and 100. -/
theorem counters_invariant (kelimeler : List Kelime) (s : AppState)
    (h : Reachable kelimeler s) :
    s.score ≤ s.totalQuestions ∧
    0 ≤ getSuccessRate s.score s.totalQuestions ∧
    getSuccessRate s.score s.totalQuestions ≤ 100 := by
  have hs := score_le_total kelimeler s h
  obtain ⟨h0, h100⟩ := getSuccessRate_bounds s.score s.totalQuestions hs
  exact ⟨hs, h0, h100⟩

/-- Witness for C10 at the initial state. -/
theorem counters_invariant_witness :
    initState.score ≤ initState.totalQuestions ∧
    0 ≤ getSuccessRate initState.score initState.totalQuestions ∧
    getSuccessRate initState.score initState.totalQuestions ≤ 100 :=
  counters_invariant [] initState Reachable.init

end Wortly
